import Mathlib

/-!
Verification of the COCO streaming join-and-decode pipeline
(src/torchvision/prototype/datasets/_builtin/coco.py).

The Python values that flow through the pipeline (JSON scalars, lists,
string-keyed dicts, torch tensors) are embedded as the inductive `Value`.
Python dicts are association lists with distinct string keys; item access,
`bool` coercion, `list.index`, `torch.tensor`, and keyword-argument binding
are modelled explicitly, with Python exceptions represented by
`Except.error`.
-/

namespace Coco

/-- Python-like runtime values: integers, booleans, strings, lists,
string-keyed dicts, and tensors produced by torch.tensor. -/
inductive Value where
  | int : Int → Value
  | bool : Bool → Value
  | str : String → Value
  | list : List Value → Value
  | dict : List (String × Value) → Value
  | tensor : List Value → Value

/-- A Python dict with string keys, as an association list (keys unique,
insertion order preserved; lookup returns the first binding). -/
abbrev Dict := List (String × Value)

/-- Python subscript `v[k]` with a string key: dict lookup raising KeyError
when absent; TypeError on lists and other non-subscriptable values. -/
def pyGetItemStr (v : Value) (k : String) : Except String Value :=
  match v with
  | .dict d =>
    match d.lookup k with
    | some w => .ok w
    | none => .error ("KeyError: " ++ k)
  | .list _ => .error ("TypeError: list indices must be integers or slices, not str")
  | _ => .error ("TypeError: object is not subscriptable")

/-- Python `bool(v)` truthiness. Tensor truthiness is only defined for
single-element tensors holding and int or bool (torch raises otherwise). -/
def pyBool (v : Value) : Except String Bool :=
  match v with
  | .int n => .ok (decide (n ≠ 0))
  | .bool b => .ok b
  | .str s => .ok (decide (s ≠ ""))
  | .list xs => .ok (!xs.isEmpty)
  | .dict d => .ok (!d.isEmpty)
  | .tensor [.int n] => .ok (decide (n ≠ 0))
  | .tensor [.bool b] => .ok b
  | .tensor _ => .error ("RuntimeError: Boolean value of Tensor is ambiguous")

/-- Whether a value is numeric (int, or bool, which is an int subtype). -/
def isNumeric (v : Value) : Bool :=
  match v with
  | .int _ => true
  | .bool _ => true
  | _ => false

/-- Python `torch.tensor(v)`: a flat list of numbers becomes a 1-d tensor,
a bare number a 0-d tensor; anything else raises. Nested lists do not occur
in this pipeline (bbox is a flat numeric 4-list). -/
def torch_tensor (v : Value) : Except String Value :=
  match v with
  | .list xs => if xs.all isNumeric then .ok (.tensor xs) else .error ("TypeError: invalid tensor data")
  | .int n => .ok (.tensor [.int n])
  | .bool b => .ok (.tensor [.bool b])
  | _ => .error ("TypeError: invalid tensor data")

/-- Python equality between a string and an arbitrary value: a str only
equals another str with the same characters. -/
def pyStrEqVal (s : String) (v : Value) : Bool :=
  match v with
  | .str t => s == t
  | _ => false

/-- Python `xs.index(x)` on a list of strings: position of the first element
equal to `x`, ValueError when no element matches. -/
def listIndex (xs : List String) (x : Value) : Except String Nat :=
  match xs.findIdx? (fun s => pyStrEqVal s x) with
  | some i => .ok i
  | none => .error ("ValueError: value is not in list")

/-- Embedding of `Coco._decode_instances_ann` (coco.py lines 40-52):
reads area, iscrowd (bool-coerced), bbox (torch.tensor), category
(`self.categories.index(ann[category_id])` — a search for the raw id among
the vocabulary entries), and id, and builds the normalized dict.
`categories` is `self.categories`, the vocabulary of category names. -/
def decode_instances_ann (categories : List String) (ann : Value) : Except String Value :=
  match ann with
  | .dict d =>
    match d.lookup ("area") with
    | none => .error ("KeyError: area")
    | some area =>
      match d.lookup ("iscrowd") with
      | none => .error ("KeyError: iscrowd")
      | some icv =>
        match pyBool icv with
        | .error e => .error e
        | .ok iscrowd =>
          match d.lookup ("bbox") with
          | none => .error ("KeyError: bbox")
          | some bb =>
            match torch_tensor bb with
            | .error e => .error e
            | .ok bbox =>
              match d.lookup ("category_id") with
              | none => .error ("KeyError: category_id")
              | some cid =>
                match listIndex categories cid with
                | .error e => .error e
                | .ok category =>
                  match d.lookup ("id") with
                  | none => .error ("KeyError: id")
                  | some id =>
                    .ok (.dict [("area", area), ("iscrowd", .bool iscrowd),
                      ("bbox", bbox), ("category", .int category), ("id", id)])
  | .list _ => .error ("TypeError: list indices must be integers or slices, not str")
  | _ => .error ("TypeError: object is not subscriptable")

/-- Removal of every binding with key `k` from a dict; since dict keys are
unique this is Python `d.pop(k)`s effect on the mapping. -/
def popKey (d : Dict) (k : String) : Dict :=
  d.filter (fun p => p.1 != k)

/-- Embedding of `Coco._decode_captions_ann` (coco.py lines 54-57):
`ann = ann.copy(); ann.pop("image_id"); return ann`. On a dict the pop
raises KeyError when image_id is absent; on a list, `pop` of a string index
raises TypeError. -/
def decode_captions_ann (ann : Value) : Except String Value :=
  match ann with
  | .dict d =>
    match d.lookup ("image_id") with
    | some _ => .ok (.dict (popKey d ("image_id")))
    | none => .error ("KeyError: image_id")
  | .list _ => .error ("TypeError: str object cannot be interpreted as an integer")
  | _ => .error ("AttributeError: object has no attribute pop")

/-- A heap of dict objects: Python names hold references (indices) into it.
Used to state frame conditions about mutation. -/
abbrev Heap := List Dict

/-- A reference to a dict object on the heap. -/
abbrev Ref := Nat

/-- Reading the dict object a reference points to. -/
def heapGet (h : Heap) (r : Ref) : Option Dict :=
  h[r]?

/-- Operational embedding of `Coco._decode_captions_ann` at the level of
object identity: the parameter is a reference to the callers dict. The body
`ann = ann.copy()` allocates a fresh object and rebinds the local name to
it; `ann.pop("image_id")` then mutates only that fresh object; the callers
object is never written. Returns the final heap and a reference to the
returned dict. -/
def decode_captions_ann_heap (h : Heap) (annRef : Ref) : Except String (Heap × Ref) :=
  match heapGet h annRef with
  | none => .error ("invalid reference")
  | some d =>
    let localRef := h.length
    let h1 := h ++ [d]
    match d.lookup ("image_id") with
    | none => .error ("KeyError: image_id")
    | some _ => .ok (h1.set localRef (popKey d ("image_id")), localRef)

/-- Embedding of `Coco._classify_meta` (coco.py lines 119-126): routes a
(top-level key, value) pair to channel 0 for images metadata, channel 1 for
annotations metadata, and drops everything else. -/
def classify_meta (data : String × Value) : Option Nat :=
  let key := data.1
  if key = "images" then some 0
  else if key = "annotations" then some 1
  else none

/-- Whether a character is matched by the regex class [a-zA-Z]. -/
def isAsciiLetter (c : Char) : Bool :=
  (c ≥ 'a' && c ≤ 'z') || (c ≥ 'A' && c ≤ 'Z')

/-- The basename of a POSIX path, i.e. `pathlib.Path(s).name` for the
slash-separated entry names appearing inside the archives. -/
def posixBasename (s : String) : String :=
  (s.splitOn ("/")).getLastD ("")

/-- Matching a file name against `Coco._META_FILE_PATTERN` (coco.py line
108), the regex `(instances|captions)_[a-zA-Z]+\d+[.]json` applied with
`re.match` (prefix-anchored at the start only). Since the letter and digit
classes are disjoint, the greedy split and year groups are the maximal
letter run and the maximal digit run. Returns the captured
(ann_type, split, year) groups. -/
def matchMetaPattern (name : String) : Option (String × String × String) :=
  let cs := name.toList
  let step2 : String → List Char → Option (String × String × String) :=
    fun annType rest1 =>
      let splitRun := rest1.takeWhile isAsciiLetter
      let rest2 := rest1.dropWhile isAsciiLetter
      let yearRun := rest2.takeWhile Char.isDigit
      let rest3 := rest2.dropWhile Char.isDigit
      if splitRun.isEmpty || yearRun.isEmpty then none
      else if rest3.take 5 = (".json").toList then
        some (annType, String.mk splitRun, String.mk yearRun)
      else none
  if cs.take 10 = ("instances_").toList then step2 ("instances") (cs.drop 10)
  else if cs.take 9 = ("captions_").toList then step2 ("captions") (cs.drop 9)
  else none

/-- Embedding of `Coco._classifiy_meta_files` (coco.py lines 110-117), as a
function of its declared keyword parameters: no channel when the entry
basename does not match the pattern or its captured split or year differ
from the configuration, otherwise `ann_type_idcs.get(ann_type)`. -/
def classifiy_meta_files (data : String × Value) (split : String) (year : String)
    (ann_type_idcs : List (String × Nat)) : Option Nat :=
  match matchMetaPattern (posixBasename data.1) with
  | none => none
  | some (annType, s, y) =>
    if s ≠ split || y ≠ year then none
    else ann_type_idcs.lookup annType

/-- The keyword-only parameter names declared by `_classifiy_meta_files`. -/
def classifiyMetaFilesKwParams : List String :=
  ["split", "year", "ann_type_idcs"]

/-- The keyword-argument names that `_make_anns_dp` (coco.py lines 170-175)
binds in the functools application handed to the Demultiplexer. -/
def annsDpClassifierKwargs : List String :=
  ["split", "year", "type_idcs"]

/-- Python keyword binding succeeds exactly when every supplied keyword is a
declared parameter and every (default-less) keyword-only parameter is
supplied; otherwise the call raises TypeError. -/
def kwCallOk (params kwargs : List String) : Bool :=
  kwargs.all (fun k => params.contains k) && params.all (fun p => kwargs.contains p)

/-- The classifier exactly as configured and applied in `_make_anns_dp`
(coco.py lines 167-178): the Demultiplexer invokes the functools
application of `_classifiy_meta_files` on each archive entry, which first
performs Python keyword binding of the supplied argument names against the
declared parameter names, then (on success) runs the classifier with
`type_idcs = dict(zip(ann_types, range(len(ann_types))))`. -/
def makeAnnsDp_classify (split : String) (year : String) (ann_types : List String)
    (data : String × Value) : Except String (Option Nat) :=
  if kwCallOk classifiyMetaFilesKwParams annsDpClassifierKwargs then
    .ok (classifiy_meta_files data split year (ann_types.zip (List.range ann_types.length)))
  else
    .error ("TypeError: _classifiy_meta_files got an unexpected keyword argument type_idcs")

/-- Embedding of `Coco._precollate_anns` (coco.py lines 156-160). `data` is
the per-entity list of (grouped annotations, image record) pairs; `types`
is the list of requested annotation kind names. `zip(*data)` on an empty
list yields nothing, so the two-target unpacking raises ValueError; on a
non-empty list it yields the tuple of groups and the tuple of image
records, the first image record is destructured out, and the result is its
file_name together with `dict(zip(types, ann_data))`, a positional pairing
of kind names with the groups (truncated to the shorter side). -/
def precollate_anns (data : List (Value × Value)) (types : List String) :
    Except String (Value × List (String × Value)) :=
  match data with
  | [] => .error ("ValueError: not enough values to unpack (expected 2, got 0)")
  | (_, firstImage) :: _ =>
    let ann_data := data.map Prod.fst
    match pyGetItemStr firstImage ("file_name") with
    | .error e => .error e
    | .ok fn => .ok (fn, types.zip ann_data)

/-- Embedding of `Coco._ANN_DECODER_MAP` (coco.py lines 59-66): the mapping
from kind name to decode function, with KeyError on unknown kinds as in
`self._ANN_DECODER_MAP[type]`. -/
def ann_decoder_map (categories : List String) (type : String) :
    Except String (Value → Except String Value) :=
  if type = "instances" then .ok (decode_instances_ann categories)
  else if type = "captions" then .ok decode_captions_ann
  else .error ("KeyError: " ++ type)

/-- The dict comprehension on coco.py line 196: for each (kind, payload)
entry of the collated mapping, look the kinds decoder up and apply it to
the payload, propagating the first failure. -/
def mapDecodeAnns (categories : List String) :
    List (String × Value) → Except String (List (String × Value))
  | [] => .ok []
  | (t, a) :: rest =>
    match ann_decoder_map categories t with
    | .error e => .error e
    | .ok dec =>
      match dec a with
      | .error e => .error e
      | .ok v =>
        match mapDecodeAnns categories rest with
        | .error e => .error e
        | .ok vs => .ok ((t, v) :: vs)

/-- Python dict update `d[k] = v` preserving insertion order: an existing
binding for `k` is overwritten in place, otherwise the binding is appended.
`dict(anns, path=..., image=...)` is two such updates on a copy of anns. -/
def dictSet (d : Dict) (k : String) (v : Value) : Dict :=
  if (d.lookup k).isSome then d.map (fun p => if p.1 = k then (k, v) else p)
  else d ++ [(k, v)]

/-- Embedding of `Coco._collate_and_decode_sample` (coco.py lines 186-200):
destructures ((file_name, kind-mapping), (path, buffer)), decodes each
kinds payload through the decoder map, computes the image as
`decoder(buffer) if decoder else buffer`, and assembles
`dict(anns, path=path, image=image)`. -/
def collate_and_decode_sample (categories : List String)
    (data : (Value × List (String × Value)) × (String × Value))
    (decoder : Option (Value → Value)) : Except String Dict :=
  let anns := data.1.2
  let path := data.2.1
  let buffer := data.2.2
  match mapDecodeAnns categories anns with
  | .error e => .error e
  | .ok decoded =>
    let image := match decoder with | some dec => dec buffer | none => buffer
    .ok (dictSet (dictSet decoded ("path") (.str path)) ("image") image)

/-- The list comprehension on coco.py line 233 together with the int
requirement on ids: extracts the (name, id) pair of every category entry,
raising KeyError on a missing field. An id that is not an int (nor a bool,
which Python sorts as an int) is rejected with TypeError, the error Python
would raise when `sorted` first compares it. -/
def extractCategoryPairs : List Value → Except String (List (Value × Int))
  | [] => .ok []
  | info :: rest =>
    match pyGetItemStr info ("name") with
    | .error e => .error e
    | .ok name =>
      match pyGetItemStr info ("id") with
      | .error e => .error e
      | .ok idv =>
        match idv with
        | .int n =>
          match extractCategoryPairs rest with
          | .error e => .error e
          | .ok tl => .ok ((name, n) :: tl)
        | .bool b =>
          match extractCategoryPairs rest with
          | .error e => .error e
          | .ok tl => .ok ((name, if b then 1 else 0) :: tl)
        | _ => .error ("TypeError: comparison not supported between id values")

/-- Embedding of the category-building tail of `Coco._generate_categories`
(coco.py lines 233-235): extract the (name, id) pairs, stably sort them
ascending by id (`sorted` with `key=lambda p: p[1]`), and return the names
in that order via `categories, _ = zip(*sorted_pairs)` — which on an empty
category list is a two-target unpacking of an empty zip and raises
ValueError. -/
def generate_categories (infos : List Value) : Except String (List Value) :=
  match extractCategoryPairs infos with
  | .error e => .error e
  | .ok pairs =>
    let sortedPairs := pairs.mergeSort (fun a b => decide (a.2 ≤ b.2))
    if sortedPairs.isEmpty then
      .error ("ValueError: not enough values to unpack (expected 2, got 0)")
    else .ok (sortedPairs.map Prod.fst)

/-- The vocabulary of end-to-end scenario A. -/
def scenarioVocabulary : List String :=
  ["cat", "dog", "bird", "fish", "cow", "person"]

/-- The single annotation record of end-to-end scenario A. -/
def scenarioAnnRecord : Value :=
  .dict [("id", .int 10), ("image_id", .int 1), ("area", .int 100),
    ("iscrowd", .int 0), ("bbox", .list [.int 0, .int 0, .int 10, .int 10]),
    ("category_id", .int 5)]

/-- The image record of end-to-end scenario A. -/
def scenarioImageRecord : Value :=
  .dict [("id", .int 1), ("file_name", .str "000001.jpg")]

/-- A grouped-annotations payload holding one captions record, for an
entity that has captions annotations but no instances annotations. -/
def captionsOnlyGroup : Value :=
  .list [.dict [("id", .int 7), ("image_id", .int 1), ("caption", .str "a cat")]]

/-- Claim C1: in end-to-end scenario A the instances decoder does not
resolve category_id 5 to the category integer 5 — the source line
`self.categories.index(ann[category_id])` searches for the raw numeric id
among the vocabulary names, no name equals the integer 5, and list.index
raises ValueError, so the claimed FinalSample is never produced. -/
theorem claim_C1 :
    decode_instances_ann scenarioVocabulary scenarioAnnRecord =
      .error ("ValueError: value is not in list") := rfl

/-- Claim C2: with kinds [instances, captions] requested and an entity that
has only a captions group, `_precollate_anns` pairs the groups positionally
with the requested kind names, so the single captions group is stored under
the key "instances" and the key "captions" is absent — contradicting the
claim that each group is keyed by the kind that actually had records. -/
theorem claim_C2 :
    precollate_anns [(captionsOnlyGroup, scenarioImageRecord)] ["instances", "captions"] =
      .ok (.str "000001.jpg", [("instances", captionsOnlyGroup)]) ∧
    ([("instances", captionsOnlyGroup)] : List (String × Value)).lookup ("captions") = none :=
  ⟨rfl, rfl⟩

/-- Claim C3: the classifier as configured in `_make_anns_dp` never returns
a channel for any entry: the functools application supplies the keyword
`type_idcs` while `_classifiy_meta_files` declares the keyword-only
parameter `ann_type_idcs`, so Python keyword binding raises TypeError on
every invocation instead of classifying the entry. -/
theorem claim_C3 :
    ∀ (split year : String) (ann_types : List String) (data : String × Value),
      makeAnnsDp_classify split year ann_types data =
        .error ("TypeError: _classifiy_meta_files got an unexpected keyword argument type_idcs") := by
  intro split year ann_types data
  rfl

/-- Claim C8: `_classify_meta` routes a pair keyed "images" to channel 0, a
pair keyed "annotations" to channel 1, and every other key to no channel,
for every accompanying value; as a Lean function it is pure, total and
deterministic by construction. -/
theorem claim_C8 :
    (∀ v : Value, classify_meta ("images", v) = some 0) ∧
    (∀ v : Value, classify_meta ("annotations", v) = some 1) ∧
    (∀ (k : String) (v : Value), k ≠ "images" → k ≠ "annotations" →
      classify_meta (k, v) = none) := by
  refine ⟨fun v => rfl, fun v => rfl, fun k v h1 h2 => ?_⟩
  simp [classify_meta, h1, h2]

/-- Witness for claim C8 at concrete inputs. -/
theorem claim_C8_witness :
    classify_meta ("images", .int 0) = some 0 ∧
    classify_meta ("annotations", .int 0) = some 1 ∧
    classify_meta ("categories", .int 0) = none :=
  ⟨claim_C8.1 (.int 0), claim_C8.2.1 (.int 0),
    claim_C8.2.2 ("categories") (.int 0) (by decide) (by decide)⟩

/-- Claim C9: on a non-empty list of (grouped annotations, image record)
pairs whose first image record carries file_name, `_precollate_anns`
succeeds and returns a (file_name, kind-mapping) pair; on the empty list
the two-target unpacking of `zip(*data)` raises ValueError, so the
non-emptiness precondition is necessary. -/
theorem claim_C9 :
    (∀ (firstPair : Value × Value) (rest : List (Value × Value)) (types : List String)
        (fnv : Value),
        pyGetItemStr firstPair.2 ("file_name") = .ok fnv →
        ∃ m, precollate_anns (firstPair :: rest) types = .ok (fnv, m)) ∧
    (∀ types : List String,
        precollate_anns [] types =
          .error ("ValueError: not enough values to unpack (expected 2, got 0)")) := by
  constructor
  · rintro ⟨g, img⟩ rest types fnv hfn
    exact ⟨types.zip (((g, img) :: rest).map Prod.fst), by simp [precollate_anns, hfn]⟩
  · intro types
    rfl

/-- Witness for claim C9: both parts applied at concrete inputs. -/
theorem claim_C9_witness :
    (∃ m, precollate_anns [(captionsOnlyGroup, scenarioImageRecord)] ["instances", "captions"] =
      .ok (.str "000001.jpg", m)) ∧
    precollate_anns [] ["instances", "captions"] =
      .error ("ValueError: not enough values to unpack (expected 2, got 0)") :=
  ⟨claim_C9.1 (captionsOnlyGroup, scenarioImageRecord) [] ["instances", "captions"]
      (.str "000001.jpg") rfl,
    claim_C9.2 ["instances", "captions"]⟩

/-- Helper: a successful instances decode requires all five fields to be
present in the record. -/
theorem decode_instances_ok_requires_keys (cats : List String) (d : Dict) (v : Value)
    (h : decode_instances_ann cats (.dict d) = .ok v) :
    (d.lookup ("area")).isSome ∧ (d.lookup ("iscrowd")).isSome ∧
    (d.lookup ("bbox")).isSome ∧ (d.lookup ("category_id")).isSome ∧
    (d.lookup ("id")).isSome := by
  unfold decode_instances_ann at h
  repeat' split at h
  all_goals simp_all

/-- Claim C4: decoding a record missing a required field fails rather than
emitting a partial result — `_decode_instances_ann` fails when any of area,
iscrowd, bbox, category_id or id is absent, and `_decode_captions_ann`
fails when image_id is absent. -/
theorem claim_C4 :
    (∀ (cats : List String) (d : Dict) (k : String),
        k ∈ (["area", "iscrowd", "bbox", "category_id", "id"] : List String) →
        d.lookup k = none →
        ∃ e, decode_instances_ann cats (.dict d) = .error e) ∧
    (∀ d : Dict, d.lookup ("image_id") = none →
        ∃ e, decode_captions_ann (.dict d) = .error e) := by
  constructor
  · intro cats d k hk hnone
    cases hres : decode_instances_ann cats (.dict d) with
    | error e => exact ⟨e, rfl⟩
    | ok v =>
      exfalso
      have hkeys := decode_instances_ok_requires_keys cats d v hres
      simp only [List.mem_cons, List.not_mem_nil, or_false] at hk
      rcases hk with rfl | rfl | rfl | rfl | rfl <;> simp_all
  · intro d hnone
    exact ⟨"KeyError: image_id", by simp [decode_captions_ann, hnone]⟩

/-- Witness for claim C4: a record with only an id is rejected by the
instances decoder, and a record without image_id by the captions decoder. -/
theorem claim_C4_witness :
    (∃ e, decode_instances_ann scenarioVocabulary (.dict [("id", .int 10)]) = .error e) ∧
    (∃ e, decode_captions_ann (.dict [("caption", .str "x")]) = .error e) :=
  ⟨claim_C4.1 scenarioVocabulary [("id", .int 10)] ("area") (by simp) rfl,
    claim_C4.2 [("caption", .str "x")] rfl⟩

/-- Helper: removing a key makes its lookup fail. -/
theorem lookup_popKey_self (d : Dict) (k : String) : (popKey d k).lookup k = none := by
  induction d with
  | nil => rfl
  | cons p tl ih =>
    obtain ⟨pk, pv⟩ := p
    simp only [popKey, List.filter_cons]
    by_cases hp : pk = k
    · have hb : (pk != k) = false := by simpa using hp
      simp only [hb, Bool.false_eq_true, if_false]
      exact ih
    · have hb : (pk != k) = true := by simpa using hp
      simp only [hb, if_true]
      rw [List.lookup_cons]
      have ht : (k == pk) = false := by
        simp only [beq_eq_false_iff_ne, ne_eq]
        exact fun hcon => hp hcon.symm
      simp only [ht]
      exact ih

/-- Helper: removing a key leaves lookups of every other key unchanged. -/
theorem lookup_popKey_ne (d : Dict) (k t : String) (h : t ≠ k) :
    (popKey d k).lookup t = d.lookup t := by
  induction d with
  | nil => rfl
  | cons p tl ih =>
    obtain ⟨pk, pv⟩ := p
    simp only [popKey, List.filter_cons]
    by_cases hp : pk = k
    · have hb : (pk != k) = false := by simpa using hp
      simp only [hb, Bool.false_eq_true, if_false]
      rw [List.lookup_cons]
      have ht : (t == pk) = false := by
        simp only [beq_eq_false_iff_ne, ne_eq]
        exact fun hcon => h (hcon.trans hp)
      simp only [ht]
      exact ih
    · have hb : (pk != k) = true := by simpa using hp
      simp only [hb, if_true]
      rw [List.lookup_cons, List.lookup_cons]
      cases hket : (t == pk) with
      | true => rfl
      | false => exact ih

/-- Claim C5: on a record carrying image_id, `_decode_captions_ann` returns
the record with exactly the image_id binding removed: looking image_id up
in the result fails, every other key resolves as in the input, and the
result is a sub-sequence of the input containing every non-image_id
binding. -/
theorem claim_C5 (d : Dict) (w : Value) (h : d.lookup ("image_id") = some w) :
    decode_captions_ann (.dict d) = .ok (.dict (popKey d ("image_id"))) ∧
    (popKey d ("image_id")).lookup ("image_id") = none ∧
    (∀ k, k ≠ "image_id" → (popKey d ("image_id")).lookup k = d.lookup k) ∧
    (popKey d ("image_id")).Sublist d ∧
    (∀ p ∈ d, p.1 ≠ "image_id" → p ∈ popKey d ("image_id")) := by
  refine ⟨by simp [decode_captions_ann, h], lookup_popKey_self d _,
    fun k hk => lookup_popKey_ne d _ k hk, List.filter_sublist d, ?_⟩
  intro p hp hne
  simp [popKey, List.mem_filter, hp, hne]

/-- Witness for claim C5 at a concrete captions record. -/
theorem claim_C5_witness :
    decode_captions_ann (.dict [("image_id", .int 1), ("caption", .str "hi")]) =
      .ok (.dict [("caption", .str "hi")]) := by
  have h := claim_C5 [("image_id", .int 1), ("caption", .str "hi")] (.int 1) rfl
  exact h.1

/-- Claim C10: `_decode_captions_ann` does not mutate its argument. In the
heap model the call copies the argument object into a fresh cell and pops
image_id only there: after a successful call the callers reference still
holds the original dict, image_id binding included, and the returned
reference is a different object holding the popped copy. -/
theorem claim_C10 (h : Heap) (r : Ref) (d : Dict) (hget : heapGet h r = some d)
    (w : Value) (himg : d.lookup ("image_id") = some w) :
    ∃ h2 r2, decode_captions_ann_heap h r = .ok (h2, r2) ∧
      r2 ≠ r ∧ heapGet h2 r = some d ∧
      heapGet h2 r2 = some (popKey d ("image_id")) := by
  have hr : r < h.length := by
    rcases Nat.lt_or_ge r h.length with hlt | hge
    · exact hlt
    · exfalso
      have hnone : h[r]? = none := List.getElem?_eq_none hge
      unfold heapGet at hget
      rw [hnone] at hget
      exact Option.noConfusion hget
  have hne : h.length ≠ r := fun hcon => lt_irrefl r (hcon ▸ hr)
  refine ⟨(h ++ [d]).set h.length (popKey d ("image_id")), h.length, ?_, hne, ?_, ?_⟩
  · simp [decode_captions_ann_heap, hget, himg]
  · show ((h ++ [d]).set h.length (popKey d ("image_id")))[r]? = some d
    rw [List.getElem?_set_ne hne, List.getElem?_append_left hr]
    exact hget
  · show ((h ++ [d]).set h.length (popKey d ("image_id")))[h.length]? =
      some (popKey d ("image_id"))
    rw [List.getElem?_set_self (by simp)]

/-- Witness for claim C10 on a one-object heap. -/
theorem claim_C10_witness :
    ∃ h2 r2,
      decode_captions_ann_heap [[("image_id", Value.int 1), ("caption", Value.str "hi")]] 0 =
        .ok (h2, r2) ∧
      r2 ≠ 0 ∧
      heapGet h2 0 = some [("image_id", Value.int 1), ("caption", Value.str "hi")] ∧
      heapGet h2 r2 = some (popKey [("image_id", Value.int 1), ("caption", Value.str "hi")]
        ("image_id")) :=
  claim_C10 [[("image_id", Value.int 1), ("caption", Value.str "hi")]] 0
    [("image_id", Value.int 1), ("caption", Value.str "hi")] rfl (.int 1) rfl

/-- Helper: overwriting an existing binding makes its lookup return the new
value. -/
theorem lookup_map_overwrite (d : Dict) (k : String) (v : Value)
    (hsome : (d.lookup k).isSome) :
    (d.map (fun p => if p.1 = k then (k, v) else p)).lookup k = some v := by
  induction d with
  | nil => simp at hsome
  | cons p tl ih =>
    obtain ⟨pk, pv⟩ := p
    rw [List.map_cons]
    by_cases hp : pk = k
    · rw [if_pos hp, List.lookup_cons]
      simp
    · rw [if_neg hp, List.lookup_cons]
      have ht : (k == pk) = false := by
        simp only [beq_eq_false_iff_ne, ne_eq]
        exact fun hc => hp hc.symm
      simp only [ht]
      apply ih
      rw [List.lookup_cons] at hsome
      simpa [ht] using hsome

/-- Helper: appending a fresh binding makes its lookup return its value. -/
theorem lookup_append_single (d : Dict) (k : String) (v : Value)
    (hnone : d.lookup k = none) :
    (d ++ [(k, v)]).lookup k = some v := by
  induction d with
  | nil => simp [List.lookup_cons]
  | cons p tl ih =>
    obtain ⟨pk, pv⟩ := p
    rw [List.cons_append, List.lookup_cons]
    rw [List.lookup_cons] at hnone
    cases hkp : (k == pk) with
    | true =>
      simp only [hkp] at hnone
      exact Option.noConfusion hnone
    | false =>
      simp only [hkp] at hnone ⊢
      exact ih hnone

/-- Helper: overwriting one key leaves lookups of other keys unchanged. -/
theorem lookup_map_overwrite_ne (d : Dict) (k t : String) (v : Value) (h : t ≠ k) :
    (d.map (fun p => if p.1 = k then (k, v) else p)).lookup t = d.lookup t := by
  induction d with
  | nil => rfl
  | cons p tl ih =>
    obtain ⟨pk, pv⟩ := p
    rw [List.map_cons]
    by_cases hp : pk = k
    · rw [if_pos hp, List.lookup_cons, List.lookup_cons]
      have h1 : (t == k) = false := beq_eq_false_iff_ne.mpr h
      have h2 : (t == pk) = false := by
        rw [hp]
        exact h1
      simp only [h1, h2]
      exact ih
    · rw [if_neg hp, List.lookup_cons, List.lookup_cons]
      cases hkp : (t == pk) with
      | true => rfl
      | false => exact ih

/-- Helper: appending one fresh key leaves lookups of other keys
unchanged. -/
theorem lookup_append_single_ne (d : Dict) (k t : String) (v : Value) (h : t ≠ k) :
    (d ++ [(k, v)]).lookup t = d.lookup t := by
  induction d with
  | nil =>
    rw [List.nil_append, List.lookup_cons]
    simp [beq_eq_false_iff_ne.mpr h]
  | cons p tl ih =>
    obtain ⟨pk, pv⟩ := p
    rw [List.cons_append, List.lookup_cons, List.lookup_cons]
    cases hkp : (t == pk) with
    | true => rfl
    | false => exact ih

/-- Helper: after a dict update the updated key holds the new value. -/
theorem lookup_dictSet_self (d : Dict) (k : String) (v : Value) :
    (dictSet d k v).lookup k = some v := by
  unfold dictSet
  by_cases hsome : (d.lookup k).isSome
  · rw [if_pos hsome]
    exact lookup_map_overwrite d k v hsome
  · rw [if_neg hsome]
    exact lookup_append_single d k v (Option.not_isSome_iff_eq_none.mp hsome)

/-- Helper: a dict update leaves every other key unchanged. -/
theorem lookup_dictSet_ne (d : Dict) (k t : String) (v : Value) (h : t ≠ k) :
    (dictSet d k v).lookup t = d.lookup t := by
  unfold dictSet
  by_cases hsome : (d.lookup k).isSome
  · rw [if_pos hsome]
    exact lookup_map_overwrite_ne d k t v h
  · rw [if_neg hsome]
    exact lookup_append_single_ne d k t v h

/-- Helper: the per-kind decode preserves the kind keys and their order. -/
theorem mapDecodeAnns_keys (cats : List String) (anns out : List (String × Value))
    (h : mapDecodeAnns cats anns = .ok out) :
    out.map Prod.fst = anns.map Prod.fst := by
  induction anns generalizing out with
  | nil =>
    simp only [mapDecodeAnns] at h
    cases h
    rfl
  | cons p tl ih =>
    obtain ⟨t, a⟩ := p
    unfold mapDecodeAnns at h
    split at h
    · exact Except.noConfusion h
    · split at h
      · exact Except.noConfusion h
      · split at h
        · exact Except.noConfusion h
        · cases h
          rw [List.map_cons, List.map_cons]
          next vs hrec => rw [ih vs hrec]

/-- Claim C6: `_collate_and_decode_sample` assembles the sample mapping:
path resolves to the joined image entrys file name, image to
`decoder(buffer)` when a decoder is supplied and to the raw buffer when it
is None, every non-reserved key resolves exactly as in the per-kind decoded
mapping, and the decoded mapping carries one key per annotation kind of the
collated record. -/
theorem claim_C6 (categories : List String) (fn : Value) (anns : List (String × Value))
    (path : String) (buffer : Value) (decoder : Option (Value → Value))
    (decoded : List (String × Value))
    (hdec : mapDecodeAnns categories anns = .ok decoded) :
    ∃ out, collate_and_decode_sample categories ((fn, anns), (path, buffer)) decoder = .ok out ∧
      out.lookup ("path") = some (.str path) ∧
      out.lookup ("image") =
        some (match decoder with | some dec => dec buffer | none => buffer) ∧
      (∀ t, t ≠ "path" → t ≠ "image" → out.lookup t = decoded.lookup t) ∧
      decoded.map Prod.fst = anns.map Prod.fst := by
  refine ⟨dictSet (dictSet decoded ("path") (.str path)) ("image")
      (match decoder with | some dec => dec buffer | none => buffer), ?_, ?_, ?_, ?_,
      mapDecodeAnns_keys categories anns decoded hdec⟩
  · simp [collate_and_decode_sample, hdec]
  · rw [lookup_dictSet_ne _ _ _ _ (by decide : ("path" : String) ≠ "image")]
    exact lookup_dictSet_self decoded ("path") (.str path)
  · exact lookup_dictSet_self _ ("image") _
  · intro t ht1 ht2
    rw [lookup_dictSet_ne _ _ _ _ ht2, lookup_dictSet_ne _ _ _ _ ht1]

/-- Witness for claim C6: a captions-only collated record with no image
decoder; the sample maps path and image and keeps the decoded captions
payload under its own key. -/
theorem claim_C6_witness :
    ∃ out,
      collate_and_decode_sample []
        ((Value.str "000001.jpg", [("captions", Value.dict [("image_id", Value.int 1)])]),
          ("000001.jpg", Value.str "rawbytes")) none = .ok out ∧
      out.lookup ("path") = some (.str "000001.jpg") ∧
      out.lookup ("image") = some (.str "rawbytes") := by
  obtain ⟨out, h1, h2, h3, _, _⟩ :=
    claim_C6 [] (.str "000001.jpg") [("captions", Value.dict [("image_id", Value.int 1)])]
      "000001.jpg" (.str "rawbytes") none [("captions", Value.dict [])] rfl
  exact ⟨out, h1, h2, h3⟩

/-- Claim C7 counterexample: on the empty category list the claim fails —
`categories, _ = zip(*sorted([]))` unpacks an empty zip and raises
ValueError instead of returning the empty vocabulary. -/
theorem claim_C7_counterexample :
    generate_categories [] =
      .error ("ValueError: not enough values to unpack (expected 2, got 0)") := by
  simp [generate_categories, extractCategoryPairs]

/-- Claim C7 as amended: for every non-empty list of category entries
carrying (name, numeric id), `_generate_categories` returns exactly the
names sorted ascending by their numeric id — the result is the first
projection of a permutation of the extracted (name, id) pairs whose id
sequence is ascending. -/
theorem claim_C7 (infos : List Value) (pairs : List (Value × Int))
    (hex : extractCategoryPairs infos = .ok pairs) (hne : pairs ≠ []) :
    ∃ sortedPairs : List (Value × Int),
      generate_categories infos = .ok (sortedPairs.map Prod.fst) ∧
      sortedPairs.Perm pairs ∧
      List.Pairwise (fun a b => a.2 ≤ b.2) sortedPairs := by
  refine ⟨pairs.mergeSort (fun a b => decide (a.2 ≤ b.2)),
    ?_, List.mergeSort_perm pairs _, ?_⟩
  · simp only [generate_categories, hex]
    have hemp : ¬ (pairs.mergeSort (fun a b => decide (a.2 ≤ b.2))).isEmpty = true := by
      intro hempty
      rw [List.isEmpty_iff] at hempty
      have hperm := List.mergeSort_perm pairs (fun a b : Value × Int => decide (a.2 ≤ b.2))
      rw [hempty] at hperm
      exact hne hperm.symm.eq_nil
    rw [if_neg hemp]
  · have hs : List.Pairwise (fun a b : Value × Int => (decide (a.2 ≤ b.2)) = true)
        (pairs.mergeSort (fun a b => decide (a.2 ≤ b.2))) :=
      List.sorted_mergeSort
        (fun a b c h1 h2 => by
          simp only [decide_eq_true_eq] at h1 h2 ⊢
          exact le_trans h1 h2)
        (fun a b => by
          simp only [Bool.or_eq_true, decide_eq_true_eq]
          exact Int.le_total a.2 b.2)
        pairs
    exact hs.imp (fun hab => by simpa using hab)

/-- Witness for claim C7 on a one-entry category list. -/
theorem claim_C7_witness :
    ∃ sortedPairs : List (Value × Int),
      generate_categories [Value.dict [("name", Value.str "cat"), ("id", Value.int 1)]] =
        .ok (sortedPairs.map Prod.fst) ∧
      sortedPairs.Perm [(Value.str "cat", 1)] ∧
      List.Pairwise (fun a b => a.2 ≤ b.2) sortedPairs :=
  claim_C7 [Value.dict [("name", Value.str "cat"), ("id", Value.int 1)]]
    [(Value.str "cat", 1)] rfl (by simp)

end Coco

